import Mathlib

/-!
# `flyctl postgres connect`: a shallow embedding of `runConnect`

Source: `internal/command/postgres/connect.go`.

`runConnect` is straight-line orchestration code around external collaborators
(API client, agent, flaps, version gates, leader selection, ssh transport).
The collaborators are parameters of the model (`World`); `runConnect` is
translated statement by statement and additionally records, in order, every
collaborator call and every inline check it performs (`Event`).
-/

namespace Postgres

/-! ## Go errors and `fmt` formatting -/

/-- Go `error` values.  `leaf` is an error without an `Unwrap` method;
`wrap` is the `*fmt.wrapError` produced by `fmt.Errorf` with a `%w` verb. -/
inductive GoError where
  | leaf (msg : String)
  | wrap (msg : String) (inner : GoError)
  deriving DecidableEq, Repr

/-- Method `err.Error()`. -/
def GoError.Error : GoError → String
  | .leaf msg => msg
  | .wrap msg _ => msg

/-- Function `errors.Unwrap(err)`. -/
def GoError.Unwrap : GoError → Option GoError
  | .leaf _ => none
  | .wrap _ inner => some inner

/-- The chain walked by `errors.Is` / `errors.As`: the error itself, then
its successive `Unwrap`s. -/
def GoError.chain : GoError → List GoError
  | .leaf msg => [.leaf msg]
  | .wrap msg inner => .wrap msg inner :: inner.chain

/-- Operands of the `fmt` calls of this file: strings and errors. -/
inductive Arg where
  | str (s : String)
  | err (e : GoError)
  deriving DecidableEq, Repr

/-- How `%s`, `%v` and `%w` print an operand: a string verbatim, an error
through its `Error()` method. -/
def Arg.render : Arg → String
  | .str s => s
  | .err e => e.Error

/-- The verbs used by the format strings of this file. -/
def isVerb (c : Char) : Bool := c = 's' || c = 'v' || c = 'w'

/-- The formatting loop of `fmt.Sprintf` on the characters of the format.
A `%` followed by one of the verbs `s`, `v`, `w` consumes the next operand
and prints it; `%%` prints a percent sign; a verb without an operand prints
Go's `%!verb(MISSING)` marker; a `%` ending the format prints `%!(NOVERB)`.
Every other character is copied.  Verbs other than `s`, `v`, `w` and surplus
operands do not occur in this file: the former print a marker, the latter are
dropped. -/
def formatAux : List Char → List Arg → List Char
  | [], _ => []
  | c :: rest, args =>
    if c = '%' then
      match rest, args with
      | [], _ => "%!(NOVERB)".data
      | v :: rest', [] =>
        if v = '%' then '%' :: formatAux rest' []
        else "%!".data ++ v :: "(MISSING)".data ++ formatAux rest' []
      | v :: rest', a :: args' =>
        if v = '%' then '%' :: formatAux rest' (a :: args')
        else if isVerb v then a.render.data ++ formatAux rest' args'
        else "%!".data ++ v :: "(BADVERB)".data ++ formatAux rest' args'
    else c :: formatAux rest args

/-- Function `fmt.Sprintf(format, args...)`. -/
def Sprintf (format : String) (args : List Arg) : String :=
  ⟨formatAux format.data args⟩

/-- The operand matched by the first `%w` verb of a format, when it is an
error: what `fmt.Errorf` records as the wrapped error. -/
def wrappedOperand : List Char → List Arg → Option GoError
  | [], _ => none
  | c :: rest, args =>
    if c = '%' then
      match rest, args with
      | [], _ => none
      | _ :: _, [] => none
      | v :: rest', a :: args' =>
        if v = '%' then wrappedOperand rest' (a :: args')
        else if v = 'w' then
          match a with
          | .err e => some e
          | .str _ => wrappedOperand rest' args'
        else wrappedOperand rest' args'
    else wrappedOperand rest args

/-- Function `fmt.Errorf(format, args...)`: the message is that of `Sprintf`
(with `%w` printing like `%v`); the result has an `Unwrap` method exactly when
the format has a `%w` verb applied to an error operand. -/
def Errorf (format : String) (args : List Arg) : GoError :=
  match wrappedOperand format.data args with
  | some e => .wrap (Sprintf format args) e
  | none => .leaf (Sprintf format args)


/-! ## Data model -/

/-- Type `api.Organization` (the field read here). -/
structure Organization where
  Slug : String
  deriving DecidableEq, Repr

/-- Type `api.AppCompact` (the fields read here). -/
structure AppCompact where
  Name : String
  Organization : Organization
  PlatformVersion : String
  deriving DecidableEq, Repr

/-- Handle `*agent.Client`. -/
structure AgentClient where
  id : Nat
  deriving DecidableEq, Repr

/-- Handle `agent.Dialer`. -/
structure Dialer where
  id : Nat
  deriving DecidableEq, Repr

/-- Handle `*flaps.Client`. -/
structure FlapsClient where
  id : Nat
  deriving DecidableEq, Repr

/-- Type `api.Machine` (the field read here, and an identifier). -/
structure Machine where
  ID : String
  PrivateIP : String
  deriving DecidableEq, Repr

/-- Type `agent.Instances` (the field read here). -/
structure Instances where
  Addresses : List String
  deriving DecidableEq, Repr

/-- The parts of `context.Context` read by `runConnect` and its
collaborators: the app name (`app.NameFromContext`), the flag set
(`flag.GetString`) and the dialer stored by `agent.DialerWithContext`. -/
structure Context where
  appName : String
  flags : List (String × String)
  dialer : Option Dialer
  deriving DecidableEq, Repr

/-- Function `app.NameFromContext(ctx)`. -/
def NameFromContext (ctx : Context) : String := ctx.appName

/-- Function `flag.GetString(ctx, name)`: the value of the named flag, the
empty string when it is not set. -/
def GetString (ctx : Context) (name : String) : String :=
  (ctx.flags.lookup name).getD ""

/-- Function `agent.DialerWithContext(ctx, dialer)`. -/
def DialerWithContext (ctx : Context) (dialer : Dialer) : Context :=
  { ctx with dialer := some dialer }

/-- The three standard streams of package `os`. -/
inductive Stream where
  | Stdin
  | Stdout
  | Stderr
  deriving DecidableEq, Repr

/-- Type `ssh.SSHParams` (the fields set by `runConnect`). -/
structure SSHParams where
  Ctx : Context
  Org : Organization
  Dialer : Dialer
  App : String
  Cmd : String
  Stdin : Stream
  Stdout : Stream
  Stderr : Stream
  deriving DecidableEq, Repr

/-- The external collaborators of `runConnect`, none of which is defined in
`connect.go`: each field gives the result of the call for its arguments.
A Go `(T, error)` result is an `Except GoError T`, a Go `error` result an
`Option GoError` (`none` is `nil`).  `MachinesNodeRoles` returns a leader
pointer, `none` being the `nil` pointer, and a second value that `runConnect`
discards. -/
structure World where
  GetAppCompact : Context → String → Except GoError AppCompact
  IsPostgresApp : AppCompact → Bool
  Establish : Context → Except GoError AgentClient
  Dialer : AgentClient → Context → String → Except GoError Dialer
  NomadPGVersionCompatible : AppCompact → String → String → Option GoError
  Instances : AgentClient → Context → String → String → Except GoError Instances
  leaderIpFromNomadInstances : Context → List String → Except GoError String
  flapsNew : Context → AppCompact → Except GoError FlapsClient
  ListActive : FlapsClient → Context → Except GoError (List Machine)
  MachinePGVersionCompatible : List Machine → String → String → Option GoError
  MachinesNodeRoles : Context → List Machine → Option Machine × List Machine
  SSHConnect : SSHParams → String → Option GoError

/-! ## Execution record -/

/-- The steps of `runConnect`: its collaborator calls with their arguments,
and its three inline checks (`!app.IsPostgresApp()`, the `switch` on
`app.PlatformVersion`, `len(pgInstances.Addresses) == 0`). -/
inductive Step where
  | GetAppCompact (appName : String)
  | IsPostgresApp (app : AppCompact)
  | Establish
  | Dialer (slug : String)
  | platformSwitch (platformVersion : String)
  | NomadPGVersionCompatible (app : AppCompact) (haMin standaloneMin : String)
  | Instances (slug name : String)
  | emptyCheck (addresses : List String)
  | leaderIpFromNomadInstances (ctx : Context) (addresses : List String)
  | flapsNew (app : AppCompact)
  | ListActive
  | MachinePGVersionCompatible (members : List Machine) (haMin standaloneMin : String)
  | MachinesNodeRoles (ctx : Context) (members : List Machine)
  | SSHConnect (params : SSHParams) (addr : String)
  deriving DecidableEq, Repr

/-- A step that was executed, and whether it produced an error (for a
collaborator call: a non-nil `error`; for an inline check: the check took its
error branch). -/
structure Event where
  step : Step
  failed : Bool
  deriving DecidableEq, Repr

/-- How a call of `runConnect` ends: it returns its `error` result (`none`
is `nil`), or the Go runtime panics on a nil pointer dereference. -/
inductive Outcome where
  | returned (err : Option GoError)
  | panicked
  deriving DecidableEq, Repr

/-- One execution of `runConnect`: the steps in the order they ran, and how
the call ended. -/
structure Run where
  trace : List Event
  outcome : Outcome
  deriving DecidableEq, Repr

/-! ## `runConnect` -/

/-- Line 126: `cmdStr := fmt.Sprintf("connect %s %s %s", database, user, password)`. -/
def cmdStr (database user password : String) : String :=
  Sprintf "connect %s %s %s" [.str database, .str user, .str password]

/-- Lines 128-137: the `&ssh.SSHParams{...}` literal passed to `ssh.SSHConnect`. -/
def sshParams (ctx : Context) (app : AppCompact) (dialer : Dialer) (appName cmdStr : String) :
    SSHParams :=
  { Ctx := ctx, Org := app.Organization, Dialer := dialer, App := appName, Cmd := cmdStr,
    Stdin := .Stdin, Stdout := .Stdout, Stderr := .Stderr }

/-- Function `runConnect` of `connect.go`, lines 56-138. -/
def runConnect (w : World) (ctx : Context) : Run :=
  let MinPostgresStandaloneVersion := "0.0.4"
  let MinPostgresHaVersion := "0.0.9"
  let appName := NameFromContext ctx
  match w.GetAppCompact ctx appName with
  | .error err =>
    ⟨[⟨.GetAppCompact appName, true⟩],
      .returned (some (Errorf "failed retrieving app %s: %w" [.str appName, .err err]))⟩
  | .ok app =>
  let t := [(⟨.GetAppCompact appName, false⟩ : Event)]
  if !w.IsPostgresApp app then
    ⟨t ++ [⟨.IsPostgresApp app, true⟩],
      .returned (some (Errorf "app %s is not a postgres app" [.str appName]))⟩
  else
  let t := t ++ [⟨.IsPostgresApp app, false⟩]
  match w.Establish ctx with
  | .error err =>
    ⟨t ++ [⟨.Establish, true⟩],
      .returned (some (Errorf "failed to establish agent: %w" [.err err]))⟩
  | .ok agentclient =>
  let t := t ++ [⟨.Establish, false⟩]
  match w.Dialer agentclient ctx app.Organization.Slug with
  | .error err =>
    ⟨t ++ [⟨.Dialer app.Organization.Slug, true⟩],
      .returned (some (Errorf "failed to build tunnel for %s: %v"
        [.str app.Organization.Slug, .err err]))⟩
  | .ok dialer =>
  let t := t ++ [⟨.Dialer app.Organization.Slug, false⟩]
  let ctx := DialerWithContext ctx dialer
  -- everything after the `switch`
  let session (t : List Event) (leaderIp : String) : Run :=
    let database := GetString ctx "database"
    let user := GetString ctx "user"
    let password := GetString ctx "password"
    let cmdStr := cmdStr database user password
    let params : SSHParams := sshParams ctx app dialer appName cmdStr
    let res := w.SSHConnect params leaderIp
    ⟨t ++ [⟨.SSHConnect params leaderIp, res.isSome⟩], .returned res⟩
  if app.PlatformVersion = "nomad" then
    let t := t ++ [⟨.platformSwitch app.PlatformVersion, false⟩]
    match w.NomadPGVersionCompatible app MinPostgresHaVersion MinPostgresStandaloneVersion with
    | some err =>
      ⟨t ++ [⟨.NomadPGVersionCompatible app MinPostgresHaVersion MinPostgresStandaloneVersion,
        true⟩], .returned (some err)⟩
    | none =>
    let t := t ++
      [⟨.NomadPGVersionCompatible app MinPostgresHaVersion MinPostgresStandaloneVersion, false⟩]
    match w.Instances agentclient ctx app.Organization.Slug app.Name with
    | .error err =>
      ⟨t ++ [⟨.Instances app.Organization.Slug app.Name, true⟩],
        .returned (some (Errorf "failed to lookup 6pn ip for %s app: %v"
          [.str app.Name, .err err]))⟩
    | .ok pgInstances =>
    let t := t ++ [⟨.Instances app.Organization.Slug app.Name, false⟩]
    if pgInstances.Addresses.length = 0 then
      ⟨t ++ [⟨.emptyCheck pgInstances.Addresses, true⟩],
        .returned (some (Errorf "no 6pn ips found for %s app" [.str app.Name]))⟩
    else
    let t := t ++ [⟨.emptyCheck pgInstances.Addresses, false⟩]
    match w.leaderIpFromNomadInstances ctx pgInstances.Addresses with
    | .error err =>
      ⟨t ++ [⟨.leaderIpFromNomadInstances ctx pgInstances.Addresses, true⟩],
        .returned (some err)⟩
    | .ok leaderIp =>
    session (t ++ [⟨.leaderIpFromNomadInstances ctx pgInstances.Addresses, false⟩]) leaderIp
  else if app.PlatformVersion = "machines" then
    let t := t ++ [⟨.platformSwitch app.PlatformVersion, false⟩]
    match w.flapsNew ctx app with
    | .error err =>
      ⟨t ++ [⟨.flapsNew app, true⟩],
        .returned (some (Errorf "list of machines could not be retrieved: %w" [.err err]))⟩
    | .ok flapsClient =>
    let t := t ++ [⟨.flapsNew app, false⟩]
    match w.ListActive flapsClient ctx with
    | .error err =>
      ⟨t ++ [⟨.ListActive, true⟩],
        .returned (some (Errorf "machines could not be retrieved %w" [.err err]))⟩
    | .ok members =>
    let t := t ++ [⟨.ListActive, false⟩]
    match w.MachinePGVersionCompatible members MinPostgresHaVersion
        MinPostgresStandaloneVersion with
    | some err =>
      ⟨t ++ [⟨.MachinePGVersionCompatible members MinPostgresHaVersion
        MinPostgresStandaloneVersion, true⟩], .returned (some err)⟩
    | none =>
    let t := t ++ [⟨.MachinePGVersionCompatible members MinPostgresHaVersion
      MinPostgresStandaloneVersion, false⟩]
    let t := t ++ [⟨.MachinesNodeRoles ctx members, false⟩]
    match (w.MachinesNodeRoles ctx members).1 with
    | none =>
      -- `leader.PrivateIP` with `leader == nil`
      ⟨t, .panicked⟩
    | some leader =>
    session t leader.PrivateIP
  else
    ⟨t ++ [⟨.platformSwitch app.PlatformVersion, true⟩],
      .returned (some (Errorf "platform %s is not supported" [.str app.PlatformVersion]))⟩

/-! ## Classifying steps -/

/-- The kinds of step named by the specification. -/
inductive Kind where
  | appLookup
  | postgresCheck
  | agentEstablish
  | dialerBuild
  | modeDispatch
  | versionGate
  | flapsClient
  | membershipQuery
  | emptyCheck
  | leaderSelection
  | session
  deriving DecidableEq, Repr

/-- The kind of each step. -/
def Step.kind : Step → Kind
  | .GetAppCompact _ => .appLookup
  | .IsPostgresApp _ => .postgresCheck
  | .Establish => .agentEstablish
  | .Dialer _ => .dialerBuild
  | .platformSwitch _ => .modeDispatch
  | .NomadPGVersionCompatible _ _ _ => .versionGate
  | .Instances _ _ => .membershipQuery
  | .emptyCheck _ => .emptyCheck
  | .leaderIpFromNomadInstances _ _ => .leaderSelection
  | .flapsNew _ => .flapsClient
  | .ListActive => .membershipQuery
  | .MachinePGVersionCompatible _ _ _ => .versionGate
  | .MachinesNodeRoles _ _ => .leaderSelection
  | .SSHConnect _ _ => .session

/-- The kinds of the steps of a run, in execution order. -/
def Run.kinds (r : Run) : List Kind := r.trace.map (fun e => e.step.kind)

/-- Whether a run invoked `ssh.SSHConnect`. -/
def Run.sessionStarted (r : Run) : Bool := r.trace.any (fun e => e.step.kind = .session)

/-- How many times a run invoked `ssh.SSHConnect`. -/
def Run.sessionCount (r : Run) : Nat := r.trace.countP (fun e => e.step.kind = .session)

/-- Whether a run ended by returning a non-nil error. -/
def Run.returnedError (r : Run) : Bool :=
  match r.outcome with
  | .returned (some _) => true
  | _ => false

/-- The step order of a complete legacy (`nomad`) run. -/
def nomadOrder : List Kind :=
  [.appLookup, .postgresCheck, .agentEstablish, .dialerBuild, .modeDispatch,
    .versionGate, .membershipQuery, .emptyCheck, .leaderSelection, .session]

/-- The step order of a complete modern (`machines`) run. -/
def machinesOrder : List Kind :=
  [.appLookup, .postgresCheck, .agentEstablish, .dialerBuild, .modeDispatch,
    .flapsClient, .membershipQuery, .versionGate, .leaderSelection, .session]

/-! ## Sample worlds -/

/-- A world in which every collaborator succeeds: the app named `n` is a
postgres app of organization `personal` on the given platform, the directory
knows two addresses of which the second is the leader, and there are two
active machines of which the second is the leader. -/
def sampleWorld (platform : String) : World where
  GetAppCompact := fun _ n => .ok ⟨n, ⟨"personal"⟩, platform⟩
  IsPostgresApp := fun _ => true
  Establish := fun _ => .ok ⟨1⟩
  Dialer := fun _ _ _ => .ok ⟨2⟩
  NomadPGVersionCompatible := fun _ _ _ => none
  Instances := fun _ _ _ _ => .ok ⟨["fdaa::1", "fdaa::2"]⟩
  leaderIpFromNomadInstances := fun _ addrs => .ok (addrs.getD 1 "")
  flapsNew := fun _ _ => .ok ⟨3⟩
  ListActive := fun _ _ => .ok [⟨"m1", "fdaa::a"⟩, ⟨"m2", "fdaa::b"⟩]
  MachinePGVersionCompatible := fun _ _ _ => none
  MachinesNodeRoles := fun _ ms => (ms.get? 1, ms.take 1)
  SSHConnect := fun _ _ => none

/-- A context naming app `pg` with the three flags set. -/
def sampleCtx : Context :=
  { appName := "pg",
    flags := [("database", "postgres"), ("user", "postgres"), ("password", "secret")],
    dialer := none }

/-- The modern-mode sample world with no primary among the active machines:
`MachinesNodeRoles` returns a nil leader and every machine as a replica. -/
def noLeaderWorld : World :=
  { sampleWorld "machines" with MachinesNodeRoles := fun _ ms => (none, ms) }

/-- The legacy-mode sample world whose agent fails to build the dialer. -/
def dialerFailWorld : World :=
  { sampleWorld "nomad" with Dialer := fun _ _ _ => .error (.leaf "tunnel unavailable") }

/-- The legacy-mode sample world whose version gate rejects the cluster. -/
def nomadGateFailWorld : World :=
  { sampleWorld "nomad" with
    NomadPGVersionCompatible := fun _ _ _ => some (.leaf "image version is not compatible") }

/-- The modern-mode sample world whose version gate rejects the cluster. -/
def machinesGateFailWorld : World :=
  { sampleWorld "machines" with
    MachinePGVersionCompatible := fun _ _ _ => some (.leaf "image version is not compatible") }

/-- The legacy-mode sample world whose directory knows no address. -/
def emptyDirectoryWorld : World :=
  { sampleWorld "nomad" with Instances := fun _ _ _ _ => .ok ⟨[]⟩ }

/-- The sample world in which the app is not a postgres app. -/
def notPostgresWorld : World :=
  { sampleWorld "nomad" with IsPostgresApp := fun _ => false }

/-- The parameters `runConnect` hands to `ssh.SSHConnect` in the sample
worlds, for `sampleCtx`. -/
def sampleParams : SSHParams :=
  { Ctx := DialerWithContext sampleCtx ⟨2⟩, Org := ⟨"personal"⟩, Dialer := ⟨2⟩, App := "pg",
    Cmd := "connect postgres postgres secret",
    Stdin := .Stdin, Stdout := .Stdout, Stderr := .Stderr }

/-- The steps of a run of the given kind, in execution order. -/
def Run.stepsOfKind (r : Run) (k : Kind) : List Step :=
  (r.trace.filter (fun e => e.step.kind = k)).map (fun e => e.step)

/-- The step kinds of a run that stops at the `switch` on the platform. -/
def dispatchOrder : List Kind :=
  [.appLookup, .postgresCheck, .agentEstablish, .dialerBuild, .modeDispatch]

/-- The legacy-mode sample world in which the remote session ends with an
error. -/
def sessionFailWorld : World :=
  { sampleWorld "nomad" with SSHConnect := fun _ _ => some (.leaf "exit status 1") }

/-- The sample world in which the app lookup fails. -/
def lookupFailWorld : World :=
  { sampleWorld "nomad" with GetAppCompact := fun _ _ => .error (.leaf "not found") }

/-- Mode dispatch is reached: the app was found, is a postgres app, and the
agent and the dialer were obtained. -/
def Reached (w : World) (ctx : Context) (app : AppCompact) (agentclient : AgentClient)
    (dialer : Dialer) : Prop :=
  w.GetAppCompact ctx (NameFromContext ctx) = .ok app ∧ w.IsPostgresApp app = true ∧
    w.Establish ctx = .ok agentclient ∧
    w.Dialer agentclient ctx app.Organization.Slug = .ok dialer

/-! ## Formatting lemmas -/

theorem cmdStr_data (d u p : String) :
    (cmdStr d u p).data = "connect ".data ++ d.data ++ ' ' :: u.data ++ ' ' :: p.data := by
  simp [cmdStr, Sprintf, formatAux, isVerb, Arg.render]

theorem cmdStr_eq (d u p : String) :
    cmdStr d u p = "connect " ++ d ++ " " ++ u ++ " " ++ p := by
  apply String.ext
  rw [cmdStr_data]
  simp [String.data_append]

/-! ## Splitting at a separator -/

theorem split_unique {α : Type} (x : α) :
    ∀ (a a' r r' : List α), x ∉ a → x ∉ a' → a ++ x :: r = a' ++ x :: r' →
      a = a' ∧ r = r'
  | [], [], r, r', _, _, h => by simpa using h
  | [], c :: a', r, r', _, h', h => by
    simp only [List.nil_append, List.cons_append, List.cons.injEq] at h
    exact absurd (h.1 ▸ List.mem_cons_self _ _) h'
  | c :: a, [], r, r', ha, _, h => by
    simp only [List.nil_append, List.cons_append, List.cons.injEq] at h
    exact absurd (h.1 ▸ List.mem_cons_self _ _) ha
  | c :: a, c' :: a', r, r', ha, h', h => by
    simp only [List.cons_append, List.cons.injEq] at h
    have ih := split_unique x a a' r r' (fun m => ha (List.mem_cons_of_mem _ m))
      (fun m => h' (List.mem_cons_of_mem _ m)) h.2
    exact ⟨by rw [h.1, ih.1], ih.2⟩

theorem cmdStr_inj_of_no_space (d u p d' u' p' : String)
    (hd : ' ' ∉ d.data) (hu : ' ' ∉ u.data) (hp : ' ' ∉ p.data)
    (h : cmdStr d' u' p' = cmdStr d u p) : d' = d ∧ u' = u ∧ p' = p := by
  have hdata := congrArg String.data h
  rw [cmdStr_data, cmdStr_data] at hdata
  simp only [List.append_assoc, List.append_cancel_left_eq] at hdata
  have hc := congrArg (List.count ' ') hdata
  simp only [List.count_append, List.count_cons_self, List.count_eq_zero.2 hd,
    List.count_eq_zero.2 hu, List.count_eq_zero.2 hp] at hc
  have hd' : ' ' ∉ d'.data := List.count_eq_zero.1 (by omega)
  have hu' : ' ' ∉ u'.data := List.count_eq_zero.1 (by omega)
  obtain ⟨h1, h2⟩ := split_unique ' ' _ _ _ _ hd' hd hdata
  obtain ⟨h3, h4⟩ := split_unique ' ' _ _ _ _ hu' hu h2
  exact ⟨String.ext h1, String.ext h3, String.ext h4⟩

theorem cmdStr_ambiguous_of_space (d u p : String)
    (h : ' ' ∈ d.data ∨ ' ' ∈ u.data ∨ ' ' ∈ p.data) :
    ∃ d' u' p' : String, (d', u', p') ≠ (d, u, p) ∧ cmdStr d' u' p' = cmdStr d u p := by
  rcases h with h | h | h
  · obtain ⟨s, t, hst⟩ := List.append_of_mem h
    refine ⟨⟨s⟩, ⟨t⟩, ⟨u.data ++ ' ' :: p.data⟩, ?_, ?_⟩
    · intro heq
      have h1 : (⟨s⟩ : String) = d := congrArg Prod.fst heq
      have h2 := congrArg List.length (congrArg String.data h1)
      rw [hst] at h2
      simp at h2
    · apply String.ext
      simp [cmdStr_data, hst]
  · obtain ⟨s, t, hst⟩ := List.append_of_mem h
    refine ⟨d, ⟨s⟩, ⟨t ++ ' ' :: p.data⟩, ?_, ?_⟩
    · intro heq
      have h1 : (⟨s⟩ : String) = u := congrArg (fun x => x.2.1) heq
      have h2 := congrArg List.length (congrArg String.data h1)
      rw [hst] at h2
      simp at h2
    · apply String.ext
      simp [cmdStr_data, hst]
  · obtain ⟨s, t, hst⟩ := List.append_of_mem h
    refine ⟨⟨d.data ++ ' ' :: u.data⟩, ⟨s⟩, ⟨t⟩, ?_, ?_⟩
    · intro heq
      have h1 : (⟨d.data ++ ' ' :: u.data⟩ : String) = d := congrArg Prod.fst heq
      have h2 := congrArg List.length (congrArg String.data h1)
      simp at h2
    · apply String.ext
      simp [cmdStr_data, hst]

/-! ## The error values built by `runConnect` -/

theorem errorf_app_lookup (a : String) (e : GoError) :
    Errorf "failed retrieving app %s: %w" [.str a, .err e]
      = .wrap ("failed retrieving app " ++ a ++ ": " ++ e.Error) e := by
  simp only [Errorf, wrappedOperand, Sprintf, formatAux, isVerb, Arg.render]
  simp
  apply String.ext
  simp [String.data_append]

theorem errorf_not_postgres (a : String) :
    Errorf "app %s is not a postgres app" [.str a]
      = .leaf ("app " ++ a ++ " is not a postgres app") := by
  simp only [Errorf, wrappedOperand, Sprintf, formatAux, isVerb, Arg.render]
  simp
  apply String.ext
  simp [String.data_append]

theorem errorf_establish (e : GoError) :
    Errorf "failed to establish agent: %w" [.err e]
      = .wrap ("failed to establish agent: " ++ e.Error) e := by
  simp only [Errorf, wrappedOperand, Sprintf, formatAux, isVerb, Arg.render]
  simp
  apply String.ext
  simp [String.data_append]

theorem errorf_dialer (slug : String) (e : GoError) :
    Errorf "failed to build tunnel for %s: %v" [.str slug, .err e]
      = .leaf ("failed to build tunnel for " ++ slug ++ ": " ++ e.Error) := by
  simp only [Errorf, wrappedOperand, Sprintf, formatAux, isVerb, Arg.render]
  simp
  apply String.ext
  simp [String.data_append]

theorem errorf_instances (name : String) (e : GoError) :
    Errorf "failed to lookup 6pn ip for %s app: %v" [.str name, .err e]
      = .leaf ("failed to lookup 6pn ip for " ++ name ++ " app: " ++ e.Error) := by
  simp only [Errorf, wrappedOperand, Sprintf, formatAux, isVerb, Arg.render]
  simp
  apply String.ext
  simp [String.data_append]

theorem errorf_empty (name : String) :
    Errorf "no 6pn ips found for %s app" [.str name]
      = .leaf ("no 6pn ips found for " ++ name ++ " app") := by
  simp only [Errorf, wrappedOperand, Sprintf, formatAux, isVerb, Arg.render]
  simp
  apply String.ext
  simp [String.data_append]

theorem errorf_flaps (e : GoError) :
    Errorf "list of machines could not be retrieved: %w" [.err e]
      = .wrap ("list of machines could not be retrieved: " ++ e.Error) e := by
  simp only [Errorf, wrappedOperand, Sprintf, formatAux, isVerb, Arg.render]
  simp
  apply String.ext
  simp [String.data_append]

theorem errorf_list_active (e : GoError) :
    Errorf "machines could not be retrieved %w" [.err e]
      = .wrap ("machines could not be retrieved " ++ e.Error) e := by
  simp only [Errorf, wrappedOperand, Sprintf, formatAux, isVerb, Arg.render]
  simp
  apply String.ext
  simp [String.data_append]

theorem errorf_platform (pv : String) :
    Errorf "platform %s is not supported" [.str pv]
      = .leaf ("platform " ++ pv ++ " is not supported") := by
  simp only [Errorf, wrappedOperand, Sprintf, formatAux, isVerb, Arg.render]
  simp
  apply String.ext
  simp [String.data_append]

/-! ## The command string -/

/-- C5: the command string handed to `ssh.SSHConnect` is the verb `connect`
followed by the values of the flags `database`, `user` and `password`,
verbatim, each preceded by a single space. -/
theorem runConnect_cmd_verbatim (w : World) (ctx : Context)
    (database user password : String)
    (hd : GetString ctx "database" = database) (hu : GetString ctx "user" = user)
    (hp : GetString ctx "password" = password)
    (params : SSHParams) (addr : String) (failed : Bool)
    (h : (⟨.SSHConnect params addr, failed⟩ : Event) ∈ (runConnect w ctx).trace) :
    params.Cmd = "connect " ++ database ++ " " ++ user ++ " " ++ password := by
  subst hd hu hp
  rw [← cmdStr_eq]
  simp only [runConnect] at h
  repeat' split at h
  all_goals simp at h
  all_goals
    obtain ⟨⟨h1, -⟩, -⟩ := h
    subst h1
    rfl

/-- Witness of C5: the modern-mode sample run hands `connect postgres postgres
secret` to the session transport. -/
theorem runConnect_cmd_verbatim_witness :
    (⟨.SSHConnect sampleParams "fdaa::b", false⟩ : Event)
        ∈ (runConnect (sampleWorld "machines") sampleCtx).trace ∧
      sampleParams.Cmd = "connect " ++ "postgres" ++ " " ++ "postgres" ++ " " ++ "secret" :=
  ⟨by decide,
    runConnect_cmd_verbatim (sampleWorld "machines") sampleCtx "postgres" "postgres" "secret"
      (by decide) (by decide) (by decide) sampleParams "fdaa::b" false (by decide)⟩

/-- C10: some other triple of values yields the same command string exactly
when one of `database`, `user`, `password` contains a space; so the command
string is injective on space-free values (empty ones included) and ambiguous
as soon as one value contains a space. -/
theorem cmdStr_ambiguous_iff_space (database user password : String) :
    (∃ d' u' p' : String, (d', u', p') ≠ (database, user, password) ∧
        cmdStr d' u' p' = cmdStr database user password) ↔
      (' ' ∈ database.data ∨ ' ' ∈ user.data ∨ ' ' ∈ password.data) := by
  constructor
  · rintro ⟨d', u', p', hne, heq⟩
    by_contra hcon
    push_neg at hcon
    obtain ⟨h1, h2, h3⟩ :=
      cmdStr_inj_of_no_space database user password d' u' p' hcon.1 hcon.2.1 hcon.2.2 heq
    exact hne (by rw [h1, h2, h3])
  · exact cmdStr_ambiguous_of_space database user password

/-! ## Mode dispatch -/

/-- C3: for a postgres app whose platform is neither `nomad` nor `machines`,
once the agent and the dialer are there `runConnect` returns the error
`platform <mode> is not supported` and has run no version gate, no flaps
client construction, no membership query, no leader selection and no session:
its steps are exactly app lookup, postgres check, agent, dialer, dispatch. -/
theorem runConnect_unsupported_mode (w : World) (ctx : Context) (app : AppCompact)
    (agentclient : AgentClient) (dialer : Dialer)
    (hApp : w.GetAppCompact ctx (NameFromContext ctx) = .ok app)
    (hPg : w.IsPostgresApp app = true)
    (hAgent : w.Establish ctx = .ok agentclient)
    (hDialer : w.Dialer agentclient ctx app.Organization.Slug = .ok dialer)
    (hNomad : app.PlatformVersion ≠ "nomad") (hMachines : app.PlatformVersion ≠ "machines") :
    (runConnect w ctx).outcome
        = .returned (some (.leaf ("platform " ++ app.PlatformVersion ++ " is not supported"))) ∧
      (runConnect w ctx).kinds = dispatchOrder ∧
      ∀ e ∈ (runConnect w ctx).trace,
        e.step.kind ≠ .versionGate ∧ e.step.kind ≠ .flapsClient ∧
        e.step.kind ≠ .membershipQuery ∧ e.step.kind ≠ .leaderSelection ∧
        e.step.kind ≠ .session := by
  simp [runConnect, hApp, hPg, hAgent, hDialer, hNomad, hMachines, errorf_platform,
    Run.kinds, Step.kind, dispatchOrder]

/-- Witness of C3: the sample app on platform `kubernetes`. -/
theorem runConnect_unsupported_mode_witness :
    (runConnect (sampleWorld "kubernetes") sampleCtx).outcome
        = .returned (some (.leaf ("platform " ++ "kubernetes" ++ " is not supported"))) ∧
      (runConnect (sampleWorld "kubernetes") sampleCtx).kinds = dispatchOrder ∧
      ∀ e ∈ (runConnect (sampleWorld "kubernetes") sampleCtx).trace,
        e.step.kind ≠ .versionGate ∧ e.step.kind ≠ .flapsClient ∧
        e.step.kind ≠ .membershipQuery ∧ e.step.kind ≠ .leaderSelection ∧
        e.step.kind ≠ .session :=
  runConnect_unsupported_mode (sampleWorld "kubernetes") sampleCtx
    ⟨"pg", ⟨"personal"⟩, "kubernetes"⟩ ⟨1⟩ ⟨2⟩ rfl rfl rfl rfl (by decide) (by decide)

/-! ## Leader selection in modern mode -/

/-- C2, the code at the failing input: with two active machines that pass the
version gate and a nil leader from `MachinesNodeRoles`, `runConnect` does not
return an error: it dereferences the nil leader.  No session is started. -/
theorem runConnect_no_leader_panics :
    noLeaderWorld.MachinePGVersionCompatible
        [⟨"m1", "fdaa::a"⟩, ⟨"m2", "fdaa::b"⟩] "0.0.9" "0.0.4" = none ∧
      (noLeaderWorld.MachinesNodeRoles (DialerWithContext sampleCtx ⟨2⟩)
        [⟨"m1", "fdaa::a"⟩, ⟨"m2", "fdaa::b"⟩]).1 = none ∧
      (runConnect noLeaderWorld sampleCtx).outcome = .panicked ∧
      (runConnect noLeaderWorld sampleCtx).returnedError = false ∧
      (runConnect noLeaderWorld sampleCtx).sessionStarted = false ∧
      (runConnect noLeaderWorld sampleCtx).stepsOfKind .leaderSelection
        = [.MachinesNodeRoles (DialerWithContext sampleCtx ⟨2⟩)
            [⟨"m1", "fdaa::a"⟩, ⟨"m2", "fdaa::b"⟩]] := by
  decide

/-! ## Legacy membership -/

/-- C4: in legacy mode, once the version gate has passed and the directory has
answered, an empty address list makes `runConnect` return `no 6pn ips found
for <app> app` without any leader selection step, and a non-empty list is
handed, unchanged, to `leaderIpFromNomadInstances`, the only leader selection
step of the run. -/
theorem runConnect_nomad_membership (w : World) (ctx : Context) (app : AppCompact)
    (agentclient : AgentClient) (dialer : Dialer) (pgInstances : Instances)
    (hApp : w.GetAppCompact ctx (NameFromContext ctx) = .ok app)
    (hPg : w.IsPostgresApp app = true)
    (hAgent : w.Establish ctx = .ok agentclient)
    (hDialer : w.Dialer agentclient ctx app.Organization.Slug = .ok dialer)
    (hMode : app.PlatformVersion = "nomad")
    (hGate : w.NomadPGVersionCompatible app "0.0.9" "0.0.4" = none)
    (hInst : w.Instances agentclient (DialerWithContext ctx dialer) app.Organization.Slug
      app.Name = .ok pgInstances) :
    (pgInstances.Addresses = [] →
        (runConnect w ctx).outcome
          = .returned (some (.leaf ("no 6pn ips found for " ++ app.Name ++ " app"))) ∧
        (runConnect w ctx).stepsOfKind .leaderSelection = []) ∧
      (pgInstances.Addresses ≠ [] →
        (runConnect w ctx).stepsOfKind .leaderSelection
          = [.leaderIpFromNomadInstances (DialerWithContext ctx dialer)
              pgInstances.Addresses]) := by
  constructor
  · intro hEmpty
    simp [runConnect, hApp, hPg, hAgent, hDialer, hMode, hGate, hInst, hEmpty, errorf_empty,
      Run.stepsOfKind, Step.kind]
  · intro hNonempty
    simp only [runConnect, hApp, hPg, hAgent, hDialer, hMode, hGate, hInst]
    cases hL : w.leaderIpFromNomadInstances (DialerWithContext ctx dialer)
      pgInstances.Addresses <;>
    simp [hNonempty, Run.stepsOfKind, Step.kind, List.filter_cons]

/-- Witness of C4: the empty directory, and the sample directory with its two
addresses. -/
theorem runConnect_nomad_membership_witness :
    ((runConnect emptyDirectoryWorld sampleCtx).outcome
          = .returned (some (.leaf ("no 6pn ips found for " ++ "pg" ++ " app"))) ∧
        (runConnect emptyDirectoryWorld sampleCtx).stepsOfKind .leaderSelection = []) ∧
      (runConnect (sampleWorld "nomad") sampleCtx).stepsOfKind .leaderSelection
        = [.leaderIpFromNomadInstances (DialerWithContext sampleCtx ⟨2⟩)
            ["fdaa::1", "fdaa::2"]] :=
  ⟨(runConnect_nomad_membership emptyDirectoryWorld sampleCtx ⟨"pg", ⟨"personal"⟩, "nomad"⟩
      ⟨1⟩ ⟨2⟩ ⟨[]⟩ rfl rfl rfl rfl rfl rfl rfl).1 rfl,
    (runConnect_nomad_membership (sampleWorld "nomad") sampleCtx
      ⟨"pg", ⟨"personal"⟩, "nomad"⟩ ⟨1⟩ ⟨2⟩ ⟨["fdaa::1", "fdaa::2"]⟩
      rfl rfl rfl rfl rfl rfl rfl).2 (by decide)⟩

/-! ## The session -/

/-- C6: when every step before the session succeeds, with `leaderIp` the
address returned by `leaderIpFromNomadInstances` (legacy mode) or the
`PrivateIP` of the leader returned by `MachinesNodeRoles` (modern mode),
`ssh.SSHConnect` is invoked exactly once, with target `leaderIp` and with the
dialer obtained from the agent, and `runConnect` returns exactly what
`ssh.SSHConnect` returns. -/
theorem runConnect_session_target (w : World) (ctx : Context) (app : AppCompact)
    (agentclient : AgentClient) (dialer : Dialer) (leaderIp : String)
    (hApp : w.GetAppCompact ctx (NameFromContext ctx) = .ok app)
    (hPg : w.IsPostgresApp app = true)
    (hAgent : w.Establish ctx = .ok agentclient)
    (hDialer : w.Dialer agentclient ctx app.Organization.Slug = .ok dialer)
    (hLeader :
      (app.PlatformVersion = "nomad" ∧
        w.NomadPGVersionCompatible app "0.0.9" "0.0.4" = none ∧
        ∃ pgInstances : Instances,
          w.Instances agentclient (DialerWithContext ctx dialer) app.Organization.Slug
            app.Name = .ok pgInstances ∧
          pgInstances.Addresses ≠ [] ∧
          w.leaderIpFromNomadInstances (DialerWithContext ctx dialer) pgInstances.Addresses
            = .ok leaderIp) ∨
      (app.PlatformVersion = "machines" ∧
        ∃ (flapsClient : FlapsClient) (members : List Machine) (leader : Machine),
          w.flapsNew (DialerWithContext ctx dialer) app = .ok flapsClient ∧
          w.ListActive flapsClient (DialerWithContext ctx dialer) = .ok members ∧
          w.MachinePGVersionCompatible members "0.0.9" "0.0.4" = none ∧
          (w.MachinesNodeRoles (DialerWithContext ctx dialer) members).1 = some leader ∧
          leader.PrivateIP = leaderIp)) :
    ∃ params : SSHParams,
      params.Dialer = dialer ∧ params.Ctx = DialerWithContext ctx dialer ∧
      (runConnect w ctx).stepsOfKind .session = [.SSHConnect params leaderIp] ∧
      (runConnect w ctx).outcome = .returned (w.SSHConnect params leaderIp) := by
  rcases hLeader with ⟨hMode, hGate, pgInstances, hInst, hNonempty, hIp⟩ |
    ⟨hMode, flapsClient, members, leader, hFlaps, hList, hGate, hRoles, hIp⟩
  · refine ⟨sshParams (DialerWithContext ctx dialer) app dialer (NameFromContext ctx)
      (cmdStr (GetString ctx "database") (GetString ctx "user") (GetString ctx "password")),
      rfl, rfl, ?_, ?_⟩
    · simp only [runConnect, hApp, hPg, hAgent, hDialer, hMode, hGate, hInst, hIp]
      simp [hNonempty, Run.stepsOfKind, Step.kind, List.filter_cons]
      rfl
    · simp only [runConnect, hApp, hPg, hAgent, hDialer, hMode, hGate, hInst, hIp]
      simp [hNonempty]
      rfl
  · refine ⟨sshParams (DialerWithContext ctx dialer) app dialer (NameFromContext ctx)
      (cmdStr (GetString ctx "database") (GetString ctx "user") (GetString ctx "password")),
      rfl, rfl, ?_, ?_⟩
    · simp only [runConnect, hApp, hPg, hAgent, hDialer, hMode, hGate, hFlaps, hList, hRoles]
      simp [Run.stepsOfKind, Step.kind, List.filter_cons, hIp]
      rfl
    · simp only [runConnect, hApp, hPg, hAgent, hDialer, hMode, hGate, hFlaps, hList, hRoles]
      simp [hIp]
      rfl

/-- Witness of C6: the legacy sample run whose session ends with an error. -/
theorem runConnect_session_target_witness :
    ∃ params : SSHParams,
      params.Dialer = ⟨2⟩ ∧ params.Ctx = DialerWithContext sampleCtx ⟨2⟩ ∧
      (runConnect sessionFailWorld sampleCtx).stepsOfKind .session
        = [.SSHConnect params "fdaa::2"] ∧
      (runConnect sessionFailWorld sampleCtx).outcome
        = .returned (sessionFailWorld.SSHConnect params "fdaa::2") :=
  runConnect_session_target sessionFailWorld sampleCtx ⟨"pg", ⟨"personal"⟩, "nomad"⟩
    ⟨1⟩ ⟨2⟩ "fdaa::2" rfl rfl rfl rfl
    (Or.inl ⟨rfl, rfl, ⟨["fdaa::1", "fdaa::2"]⟩, rfl, by decide, rfl⟩)

/-! ## Errors before the session -/

/-- C1: in every run, a failing step other than the session itself makes
`runConnect` return an error without ever invoking `ssh.SSHConnect`;
`ssh.SSHConnect` is invoked at most once; and when it is invoked, the run
consists of the complete step sequence of its mode with the session last, all
earlier steps having succeeded. -/
theorem runConnect_error_precedes_session (w : World) (ctx : Context) :
    ((∃ e ∈ (runConnect w ctx).trace, e.step.kind ≠ .session ∧ e.failed = true) →
        (runConnect w ctx).returnedError = true ∧
        (runConnect w ctx).sessionStarted = false) ∧
      (runConnect w ctx).sessionCount ≤ 1 ∧
      ((runConnect w ctx).sessionStarted = true →
        ((runConnect w ctx).kinds = nomadOrder ∨ (runConnect w ctx).kinds = machinesOrder) ∧
        ∀ e ∈ (runConnect w ctx).trace, e.step.kind ≠ .session → e.failed = false) := by
  simp only [runConnect]
  repeat' split
  all_goals
    simp [Run.returnedError, Run.sessionStarted, Run.sessionCount, Run.kinds, Step.kind,
      nomadOrder, machinesOrder, List.countP_cons, sshParams]

/-- Witness of C1: the legacy sample run whose version gate fails. -/
theorem runConnect_error_precedes_session_witness :
    (runConnect nomadGateFailWorld sampleCtx).returnedError = true ∧
      (runConnect nomadGateFailWorld sampleCtx).sessionStarted = false :=
  (runConnect_error_precedes_session nomadGateFailWorld sampleCtx).1
    ⟨⟨.NomadPGVersionCompatible ⟨"pg", ⟨"personal"⟩, "nomad"⟩ "0.0.9" "0.0.4", true⟩,
      by decide, by decide, rfl⟩

/-! ## Error wrapping -/

/-- C7 as stated fails: the error of a failing dialer construction is not in
the chain of the error `runConnect` returns (the format verb is `%v`), and
the error of a failing version gate is returned as it is, with no message
naming an operation or an identifier added. -/
theorem runConnect_not_every_error_wrapped :
    (dialerFailWorld.Dialer ⟨1⟩ sampleCtx "personal" = .error (.leaf "tunnel unavailable") ∧
        (runConnect dialerFailWorld sampleCtx).outcome
          = .returned (some (.leaf "failed to build tunnel for personal: tunnel unavailable")) ∧
        GoError.leaf "tunnel unavailable"
          ∉ (GoError.leaf "failed to build tunnel for personal: tunnel unavailable").chain) ∧
      (nomadGateFailWorld.NomadPGVersionCompatible ⟨"pg", ⟨"personal"⟩, "nomad"⟩ "0.0.9" "0.0.4"
          = some (.leaf "image version is not compatible") ∧
        (runConnect nomadGateFailWorld sampleCtx).outcome
          = .returned (some (.leaf "image version is not compatible"))) :=
  ⟨⟨rfl, by decide, by decide⟩, rfl, by decide⟩

/-- C7 amended: what `runConnect` returns for each failing collaborator step.
App lookup, agent establishment, flaps client construction and the modern
membership query: an error whose message is the operation text (with the app
name for the lookup) followed by the collaborator's message, wrapping the
collaborator's error.  Dialer construction and the legacy membership query: an
error whose message is the operation text with the organization, respectively
the app name, followed by the collaborator's message.  Version gates and legacy
leader selection: the collaborator's error itself. -/
theorem runConnect_collaborator_errors (w : World) (ctx : Context) :
    (∀ err, w.GetAppCompact ctx (NameFromContext ctx) = .error err →
        (runConnect w ctx).outcome = .returned (some (.wrap
          ("failed retrieving app " ++ NameFromContext ctx ++ ": " ++ err.Error) err))) ∧
      (∀ app err, w.GetAppCompact ctx (NameFromContext ctx) = .ok app →
        w.IsPostgresApp app = true → w.Establish ctx = .error err →
        (runConnect w ctx).outcome = .returned (some (.wrap
          ("failed to establish agent: " ++ err.Error) err))) ∧
      (∀ app agentclient err, w.GetAppCompact ctx (NameFromContext ctx) = .ok app →
        w.IsPostgresApp app = true → w.Establish ctx = .ok agentclient →
        w.Dialer agentclient ctx app.Organization.Slug = .error err →
        ∃ e, (runConnect w ctx).outcome = .returned (some e) ∧
          e.Error = "failed to build tunnel for " ++ app.Organization.Slug ++ ": "
            ++ err.Error) ∧
      (∀ app agentclient dialer, Reached w ctx app agentclient dialer →
        app.PlatformVersion = "nomad" →
        (∀ err, w.NomadPGVersionCompatible app "0.0.9" "0.0.4" = some err →
          (runConnect w ctx).outcome = .returned (some err)) ∧
        (w.NomadPGVersionCompatible app "0.0.9" "0.0.4" = none →
          (∀ err, w.Instances agentclient (DialerWithContext ctx dialer)
              app.Organization.Slug app.Name = .error err →
            ∃ e, (runConnect w ctx).outcome = .returned (some e) ∧
              e.Error = "failed to lookup 6pn ip for " ++ app.Name ++ " app: " ++ err.Error) ∧
          (∀ pgInstances err, w.Instances agentclient (DialerWithContext ctx dialer)
              app.Organization.Slug app.Name = .ok pgInstances →
            pgInstances.Addresses ≠ [] →
            w.leaderIpFromNomadInstances (DialerWithContext ctx dialer)
              pgInstances.Addresses = .error err →
            (runConnect w ctx).outcome = .returned (some err)))) ∧
      (∀ app agentclient dialer, Reached w ctx app agentclient dialer →
        app.PlatformVersion = "machines" →
        (∀ err, w.flapsNew (DialerWithContext ctx dialer) app = .error err →
          (runConnect w ctx).outcome = .returned (some (.wrap
            ("list of machines could not be retrieved: " ++ err.Error) err))) ∧
        (∀ flapsClient, w.flapsNew (DialerWithContext ctx dialer) app = .ok flapsClient →
          (∀ err, w.ListActive flapsClient (DialerWithContext ctx dialer) = .error err →
            (runConnect w ctx).outcome = .returned (some (.wrap
              ("machines could not be retrieved " ++ err.Error) err))) ∧
          (∀ members err,
            w.ListActive flapsClient (DialerWithContext ctx dialer) = .ok members →
            w.MachinePGVersionCompatible members "0.0.9" "0.0.4" = some err →
            (runConnect w ctx).outcome = .returned (some err)))) := by
  refine ⟨?_, ?_, ?_, ?_, ?_⟩
  · intro err h
    simp [runConnect, h, errorf_app_lookup]
  · intro app err h1 h2 h3
    simp [runConnect, h1, h2, h3, errorf_establish]
  · intro app agentclient err h1 h2 h3 h4
    simp [runConnect, h1, h2, h3, h4, errorf_dialer, GoError.Error]
  · rintro app agentclient dialer ⟨h1, h2, h3, h4⟩ hMode
    refine ⟨?_, ?_⟩
    · intro err h5
      simp [runConnect, h1, h2, h3, h4, hMode, h5]
    · intro h5
      refine ⟨?_, ?_⟩
      · intro err h6
        simp [runConnect, h1, h2, h3, h4, hMode, h5, h6, errorf_instances, GoError.Error]
      · intro pgInstances err h6 h7 h8
        simp [runConnect, h1, h2, h3, h4, hMode, h5, h6, h7, h8]
  · rintro app agentclient dialer ⟨h1, h2, h3, h4⟩ hMode
    refine ⟨?_, ?_⟩
    · intro err h5
      simp [runConnect, h1, h2, h3, h4, hMode, h5, errorf_flaps]
    · intro flapsClient h5
      refine ⟨?_, ?_⟩
      · intro err h6
        simp [runConnect, h1, h2, h3, h4, hMode, h5, h6, errorf_list_active]
      · intro members err h6 h7
        simp [runConnect, h1, h2, h3, h4, hMode, h5, h6, h7]

/-- Witness of C7 amended: a failing app lookup is wrapped, a failing legacy
version gate is returned as it is. -/
theorem runConnect_collaborator_errors_witness :
    (runConnect lookupFailWorld sampleCtx).outcome = .returned (some (.wrap
        ("failed retrieving app " ++ NameFromContext sampleCtx ++ ": "
          ++ (GoError.leaf "not found").Error) (.leaf "not found"))) ∧
      (runConnect nomadGateFailWorld sampleCtx).outcome
        = .returned (some (.leaf "image version is not compatible")) :=
  ⟨(runConnect_collaborator_errors lookupFailWorld sampleCtx).1 (.leaf "not found") rfl,
    ((runConnect_collaborator_errors nomadGateFailWorld sampleCtx).2.2.2.1
      ⟨"pg", ⟨"personal"⟩, "nomad"⟩ ⟨1⟩ ⟨2⟩ ⟨rfl, rfl, rfl, rfl⟩ rfl).1
      (.leaf "image version is not compatible") rfl⟩

/-! ## Step order -/

/-- C8 as stated fails in modern mode: in the sample run whose version gate
rejects the machines, the node lifecycle service has been queried, and it
was queried before the gate was evaluated. -/
theorem runConnect_machines_query_before_gate :
    (runConnect machinesGateFailWorld sampleCtx).kinds
        = [.appLookup, .postgresCheck, .agentEstablish, .dialerBuild, .modeDispatch,
            .flapsClient, .membershipQuery, .versionGate] ∧
      (⟨.MachinePGVersionCompatible [⟨"m1", "fdaa::a"⟩, ⟨"m2", "fdaa::b"⟩] "0.0.9" "0.0.4",
          true⟩ : Event) ∈ (runConnect machinesGateFailWorld sampleCtx).trace ∧
      (runConnect machinesGateFailWorld sampleCtx).stepsOfKind .membershipQuery
        = [.ListActive] := by
  decide

/-- C8 amended: in legacy mode the version gate is evaluated right after the
dispatch, on the app: when it fails the run ends there with the gate's error
and no membership query; when it passes the directory is queried, then comes
the empty check, then leader selection, then the session.  In modern mode the
flaps client is built and the node lifecycle service queried first, and the
version gate is then evaluated on exactly the members it returned: when it
fails the run ends there with the gate's error; when it passes leader
selection runs on the same members, then the session.  In either mode the
steps form an initial segment of the mode's order, a failing step is the last
step of its run, and a failing gate means no leader selection and no
session. -/
theorem runConnect_step_order (w : World) (ctx : Context) (app : AppCompact)
    (hApp : w.GetAppCompact ctx (NameFromContext ctx) = .ok app) :
    (app.PlatformVersion = "nomad" →
        (runConnect w ctx).kinds <+: nomadOrder ∧
        ∀ e ∈ (runConnect w ctx).trace, e.step.kind = .versionGate → e.failed = true →
          Kind.membershipQuery ∉ (runConnect w ctx).kinds) ∧
      (app.PlatformVersion = "machines" → (runConnect w ctx).kinds <+: machinesOrder) ∧
      (∀ e ∈ (runConnect w ctx).trace, e.failed = true →
        (runConnect w ctx).trace.getLast? = some e) ∧
      (∀ e ∈ (runConnect w ctx).trace, e.step.kind = .versionGate → e.failed = true →
        Kind.leaderSelection ∉ (runConnect w ctx).kinds ∧
        Kind.session ∉ (runConnect w ctx).kinds) ∧
      (∀ agentclient dialer, Reached w ctx app agentclient dialer →
        app.PlatformVersion = "nomad" →
        (runConnect w ctx).stepsOfKind .versionGate
          = [.NomadPGVersionCompatible app "0.0.9" "0.0.4"] ∧
        (∀ err, w.NomadPGVersionCompatible app "0.0.9" "0.0.4" = some err →
          (runConnect w ctx).kinds = dispatchOrder ++ [.versionGate] ∧
          (runConnect w ctx).outcome = .returned (some err)) ∧
        (w.NomadPGVersionCompatible app "0.0.9" "0.0.4" = none →
          (runConnect w ctx).stepsOfKind .membershipQuery
            = [.Instances app.Organization.Slug app.Name] ∧
          (∀ err, w.Instances agentclient (DialerWithContext ctx dialer)
              app.Organization.Slug app.Name = .error err →
            (runConnect w ctx).kinds = dispatchOrder ++ [.versionGate, .membershipQuery]) ∧
          (∀ pgInstances, w.Instances agentclient (DialerWithContext ctx dialer)
              app.Organization.Slug app.Name = .ok pgInstances →
            (pgInstances.Addresses = [] →
              (runConnect w ctx).kinds
                = dispatchOrder ++ [.versionGate, .membershipQuery, .emptyCheck]) ∧
            (pgInstances.Addresses ≠ [] →
              (∀ err, w.leaderIpFromNomadInstances (DialerWithContext ctx dialer)
                  pgInstances.Addresses = .error err →
                (runConnect w ctx).kinds = dispatchOrder ++
                  [.versionGate, .membershipQuery, .emptyCheck, .leaderSelection]) ∧
              (∀ leaderIp, w.leaderIpFromNomadInstances (DialerWithContext ctx dialer)
                  pgInstances.Addresses = .ok leaderIp →
                (runConnect w ctx).kinds = nomadOrder))))) ∧
      (∀ agentclient dialer, Reached w ctx app agentclient dialer →
        app.PlatformVersion = "machines" →
        (∀ err, w.flapsNew (DialerWithContext ctx dialer) app = .error err →
          (runConnect w ctx).kinds = dispatchOrder ++ [.flapsClient]) ∧
        (∀ flapsClient, w.flapsNew (DialerWithContext ctx dialer) app = .ok flapsClient →
          (runConnect w ctx).stepsOfKind .membershipQuery = [.ListActive] ∧
          (∀ err, w.ListActive flapsClient (DialerWithContext ctx dialer) = .error err →
            (runConnect w ctx).kinds = dispatchOrder ++ [.flapsClient, .membershipQuery]) ∧
          (∀ members, w.ListActive flapsClient (DialerWithContext ctx dialer) = .ok members →
            (runConnect w ctx).stepsOfKind .versionGate
              = [.MachinePGVersionCompatible members "0.0.9" "0.0.4"] ∧
            (∀ err, w.MachinePGVersionCompatible members "0.0.9" "0.0.4" = some err →
              (runConnect w ctx).kinds
                = dispatchOrder ++ [.flapsClient, .membershipQuery, .versionGate] ∧
              (runConnect w ctx).outcome = .returned (some err)) ∧
            (w.MachinePGVersionCompatible members "0.0.9" "0.0.4" = none →
              (runConnect w ctx).stepsOfKind .leaderSelection
                = [.MachinesNodeRoles (DialerWithContext ctx dialer) members] ∧
              (∀ leader,
                (w.MachinesNodeRoles (DialerWithContext ctx dialer) members).1 = some leader →
                (runConnect w ctx).kinds = machinesOrder))))) := by
  refine ⟨?_, ?_, ?_, ?_, ?_, ?_⟩
  · intro hMode
    simp only [runConnect, hApp, hMode, ↓reduceIte, String.reduceEq]
    repeat' split
    all_goals simp [Run.kinds, Step.kind, nomadOrder, sshParams]
  · intro hMode
    simp only [runConnect, hApp, hMode, ↓reduceIte, String.reduceEq]
    repeat' split
    all_goals simp [Run.kinds, Step.kind, machinesOrder, sshParams]
  · simp only [runConnect]
    repeat' split
    all_goals simp [sshParams]
  · simp only [runConnect]
    repeat' split
    all_goals simp [Run.kinds, Step.kind, sshParams]
  · rintro agentclient dialer ⟨-, h2, h3, h4⟩ hMode
    refine ⟨?_, ?_, ?_⟩
    · simp only [runConnect, hApp, h2, h3, h4, hMode]
      repeat' split
      all_goals simp_all [Run.stepsOfKind, Step.kind, List.filter_cons]
    · intro err h5
      simp [runConnect, hApp, h2, h3, h4, hMode, h5, Run.kinds, Step.kind, dispatchOrder]
    · intro h5
      refine ⟨?_, ?_, ?_⟩
      · simp only [runConnect, hApp, h2, h3, h4, hMode, h5]
        repeat' split
        all_goals simp_all [Run.stepsOfKind, Step.kind, List.filter_cons]
      · intro err h6
        simp [runConnect, hApp, h2, h3, h4, hMode, h5, h6, Run.kinds, Step.kind, dispatchOrder]
      · intro pgInstances h6
        refine ⟨?_, ?_⟩
        · intro h7
          simp [runConnect, hApp, h2, h3, h4, hMode, h5, h6, h7, Run.kinds, Step.kind,
            dispatchOrder]
        · intro h7
          refine ⟨?_, ?_⟩
          · intro err h8
            simp [runConnect, hApp, h2, h3, h4, hMode, h5, h6, h7, h8, Run.kinds, Step.kind,
              dispatchOrder]
          · intro leaderIp h8
            simp [runConnect, hApp, h2, h3, h4, hMode, h5, h6, h7, h8, Run.kinds, Step.kind,
              nomadOrder]
  · rintro agentclient dialer ⟨-, h2, h3, h4⟩ hMode
    refine ⟨?_, ?_⟩
    · intro err h5
      simp [runConnect, hApp, h2, h3, h4, hMode, h5, Run.kinds, Step.kind, dispatchOrder]
    · intro flapsClient h5
      refine ⟨?_, ?_, ?_⟩
      · simp only [runConnect, hApp, h2, h3, h4, hMode, h5]
        repeat' split
        all_goals simp_all [Run.stepsOfKind, Step.kind, List.filter_cons]
      · intro err h6
        simp [runConnect, hApp, h2, h3, h4, hMode, h5, h6, Run.kinds, Step.kind, dispatchOrder]
      · intro members h6
        refine ⟨?_, ?_, ?_⟩
        · simp only [runConnect, hApp, h2, h3, h4, hMode, h5, h6]
          repeat' split
          all_goals simp_all [Run.stepsOfKind, Step.kind, List.filter_cons]
        · intro err h7
          simp [runConnect, hApp, h2, h3, h4, hMode, h5, h6, h7, Run.kinds, Step.kind,
            dispatchOrder]
        · intro h7
          refine ⟨?_, ?_⟩
          · simp only [runConnect, hApp, h2, h3, h4, hMode, h5, h6, h7]
            repeat' split
            all_goals simp_all [Run.stepsOfKind, Step.kind, List.filter_cons]
          · intro leader h8
            simp [runConnect, hApp, h2, h3, h4, hMode, h5, h6, h7, h8, Run.kinds, Step.kind,
              machinesOrder]

/-- Witness of C8 amended: the legacy sample run whose version gate fails ends
at the gate with the gate's error; the modern sample run whose version gate
fails has queried the lifecycle service, evaluated the gate on the two machines
it returned, and ends at the gate with the gate's error. -/
theorem runConnect_step_order_witness :
    ((runConnect nomadGateFailWorld sampleCtx).kinds = dispatchOrder ++ [.versionGate] ∧
        (runConnect nomadGateFailWorld sampleCtx).outcome
          = .returned (some (.leaf "image version is not compatible"))) ∧
      (runConnect machinesGateFailWorld sampleCtx).stepsOfKind .versionGate
        = [.MachinePGVersionCompatible [⟨"m1", "fdaa::a"⟩, ⟨"m2", "fdaa::b"⟩]
            "0.0.9" "0.0.4"] ∧
      ((runConnect machinesGateFailWorld sampleCtx).kinds
          = dispatchOrder ++ [.flapsClient, .membershipQuery, .versionGate] ∧
        (runConnect machinesGateFailWorld sampleCtx).outcome
          = .returned (some (.leaf "image version is not compatible"))) :=
  ⟨((runConnect_step_order nomadGateFailWorld sampleCtx ⟨"pg", ⟨"personal"⟩, "nomad"⟩
      rfl).2.2.2.2.1 ⟨1⟩ ⟨2⟩ ⟨rfl, rfl, rfl, rfl⟩ rfl).2.1
      (.leaf "image version is not compatible") rfl,
    ((((runConnect_step_order machinesGateFailWorld sampleCtx
      ⟨"pg", ⟨"personal"⟩, "machines"⟩ rfl).2.2.2.2.2 ⟨1⟩ ⟨2⟩ ⟨rfl, rfl, rfl, rfl⟩ rfl).2
      ⟨3⟩ rfl).2.2 [⟨"m1", "fdaa::a"⟩, ⟨"m2", "fdaa::b"⟩] rfl).1,
    ((((runConnect_step_order machinesGateFailWorld sampleCtx
      ⟨"pg", ⟨"personal"⟩, "machines"⟩ rfl).2.2.2.2.2 ⟨1⟩ ⟨2⟩ ⟨rfl, rfl, rfl, rfl⟩ rfl).2
      ⟨3⟩ rfl).2.2 [⟨"m1", "fdaa::a"⟩, ⟨"m2", "fdaa::b"⟩] rfl).2.1
      (.leaf "image version is not compatible") rfl⟩

/-! ## Configuration errors -/

/-- C9 as stated fails for an unsupported mode: in the sample run on platform
`kubernetes` the agent has been established and the dialer built before the
unsupported-mode error is returned. -/
theorem runConnect_unsupported_after_tunnel :
    (runConnect (sampleWorld "kubernetes") sampleCtx).outcome
        = .returned (some (.leaf "platform kubernetes is not supported")) ∧
      (runConnect (sampleWorld "kubernetes") sampleCtx).stepsOfKind .agentEstablish
        = [.Establish] ∧
      (runConnect (sampleWorld "kubernetes") sampleCtx).stepsOfKind .dialerBuild
        = [.Dialer "personal"] := by
  decide

/-- C9 amended: an app that is not a postgres app makes `runConnect` return
`app <name> is not a postgres app` right after the lookup and the check, with
no other step; an unsupported mode makes it return `platform <mode> is not
supported` once the agent is established and the dialer built, with no
version gate, membership query, leader selection or session; and no run
executes a kind of step twice. -/
theorem runConnect_configuration_errors (w : World) (ctx : Context) (app : AppCompact)
    (hApp : w.GetAppCompact ctx (NameFromContext ctx) = .ok app) :
    (w.IsPostgresApp app = false →
        (runConnect w ctx).outcome = .returned (some (.leaf
          ("app " ++ NameFromContext ctx ++ " is not a postgres app"))) ∧
        (runConnect w ctx).kinds = [.appLookup, .postgresCheck]) ∧
      (∀ agentclient dialer, Reached w ctx app agentclient dialer →
        app.PlatformVersion ≠ "nomad" → app.PlatformVersion ≠ "machines" →
        (runConnect w ctx).outcome = .returned (some (.leaf
          ("platform " ++ app.PlatformVersion ++ " is not supported"))) ∧
        (runConnect w ctx).kinds = dispatchOrder) ∧
      (runConnect w ctx).kinds.Nodup := by
  refine ⟨?_, ?_, ?_⟩
  · intro hPg
    simp [runConnect, hApp, hPg, errorf_not_postgres, Run.kinds, Step.kind]
  · rintro agentclient dialer ⟨-, h2, h3, h4⟩ hNomad hMachines
    simp [runConnect, hApp, h2, h3, h4, hNomad, hMachines, errorf_platform, Run.kinds,
      Step.kind, dispatchOrder]
  · simp only [runConnect]
    repeat' split
    all_goals simp [Run.kinds, Step.kind, sshParams]

/-- Witness of C9 amended: the sample app when it is not a postgres app. -/
theorem runConnect_configuration_errors_witness :
    (runConnect notPostgresWorld sampleCtx).outcome = .returned (some (.leaf
        ("app " ++ NameFromContext sampleCtx ++ " is not a postgres app"))) ∧
      (runConnect notPostgresWorld sampleCtx).kinds = [.appLookup, .postgresCheck] :=
  (runConnect_configuration_errors notPostgresWorld sampleCtx ⟨"pg", ⟨"personal"⟩, "nomad"⟩
    rfl).1 rfl

end Postgres
